import Mathlib

/-!
Shallow embedding of the Governor contract of the Investment-dao repository
(src/contracts/dao/lib.rs), an ink! smart contract.

Modelling conventions:
* Machine integers (`u8`, `u32`, `u64`, `u128`) are `Nat` with an explicit
  `% 2^w` wherever the Rust code performs arithmetic that can overflow.
  The source ships no Cargo profile, so arithmetic follows Rust's default
  release-profile semantics: `+`, `*` wrap silently; `as u8` truncates
  modulo 256; integer division by zero always panics.  The spec itself
  describes tallies "modulo the accumulator's representable range".
* A Rust panic (here only the division by zero in `vote`) aborts the call
  and, in ink!, reverts all state: it is modelled as `Option.none` — no
  result and no successor state.
* The contract environment (caller identity, block timestamp, own balance)
  and the governance-token ledger (`total_supply`, `balance_of`) are
  external inputs: they are passed to each operation as an `Env` record.
* The `Mapping` storage cells become functions `key → Option value`
  (`votes`, a unit-valued map, becomes a boolean membership function).
* `env().transfer` in `execute` is guarded by `balance > amount` and
  treated as the atomic always-succeeding primitive the spec describes;
  it does not touch the Governor's own storage.
-/

namespace Dao

abbrev AccountId := Nat
abbrev Balance := Nat
abbrev ProposalId := Nat

abbrev U8MOD : Nat := 2 ^ 8
abbrev U32MOD : Nat := 2 ^ 32
abbrev U64MOD : Nat := 2 ^ 64
abbrev U128MOD : Nat := 2 ^ 128

/-- `ONE_MINUTE` constant from the source. -/
def ONE_MINUTE : Nat := 60

/-- `VoteType` enum from the source. -/
inductive VoteType
  | Against
  | For
deriving DecidableEq

/-- `GovernorError` enum from the source. -/
inductive GovernorError
  | AmountShouldNotBeZero
  | DurationError
  | ProposalNotFound
  | ProposalAlreadyExecuted
  | VotePeriodEnded
  | AlreadyVoted
  | QuorumNotReached
  | ProposalNotAccepted
  | InsufficientBalance
deriving DecidableEq

/-- `Proposal` record from the source (`to`, `vote_start`, `vote_end`,
`executed`, `amount`). -/
structure Proposal where
  to_account : AccountId
  vote_start : Nat
  vote_end : Nat
  executed : Bool
  amount : Balance
deriving DecidableEq

/-- `ProposalVote` record from the source: the two `u8` tally accumulators. -/
structure ProposalVote where
  for_votes : Nat
  against_vote : Nat
deriving DecidableEq

/-- `Default` instance of `ProposalVote` (`#[derive(Default)]` in the source). -/
def ProposalVote.default : ProposalVote := ⟨0, 0⟩

/-- The `Governor` storage struct: the three mappings, the id counter, the
quorum threshold and the ledger address. -/
structure Governor where
  proposals : ProposalId → Option Proposal
  proposal_votes : ProposalId → Option ProposalVote
  votes : ProposalId → AccountId → Bool
  next_proposal_id : ProposalId
  quorum : Nat
  governance_token : AccountId

/-- Per-call environment: caller, block timestamp, the contract's own
balance, and the two read-only ledger queries. -/
structure Env where
  caller : AccountId
  now : Nat
  balance : Balance
  total_supply : Balance
  balance_of : AccountId → Balance

/-- `Governor::new`. -/
def Governor.new (governance_token : AccountId) (quorum : Nat) : Governor :=
  { proposals := fun _ => none
    proposal_votes := fun _ => none
    votes := fun _ _ => false
    next_proposal_id := 0
    quorum := quorum
    governance_token := governance_token }

/-- The proposal tally as `execute`/`vote` read it:
`self.proposal_votes.get(id).unwrap_or_default()`. -/
def tallyOf (g : Governor) (proposal_id : ProposalId) : ProposalVote :=
  (g.proposal_votes proposal_id).getD ProposalVote.default

/-- `Governor::get_proposal`. -/
def get_proposal (g : Governor) (proposal_id : ProposalId) :
    Except GovernorError Proposal :=
  match g.proposals proposal_id with
  | some p => Except.ok p
  | none => Except.error GovernorError.ProposalNotFound

/-- The `Proposal` record built on the success path of `propose`:
`vote_start = now`, `vote_end = now + duration * 60` with the `u64`
multiplication and addition wrapping, `executed = false`. -/
def newProposal (e : Env) (to_account : AccountId) (amount : Balance)
    (duration : Nat) : Proposal :=
  { to_account := to_account
    vote_start := e.now
    vote_end := (e.now + duration * ONE_MINUTE) % U64MOD
    executed := false
    amount := amount }

/-- The state written by the success path of `propose`: the new proposal is
inserted at `next_proposal_id` and the counter is incremented (a `u32`
`+= 1`, hence modulo `2^32`). -/
def proposeSuccState (g : Governor) (e : Env) (to_account : AccountId)
    (amount : Balance) (duration : Nat) : Governor :=
  { g with
    proposals := fun i =>
      if i = g.next_proposal_id then some (newProposal e to_account amount duration)
      else g.proposals i
    next_proposal_id := (g.next_proposal_id + 1) % U32MOD }

/-- `Governor::propose`. -/
def propose (g : Governor) (e : Env) (to_account : AccountId) (amount : Balance)
    (duration : Nat) : Except GovernorError Unit × Governor :=
  if amount = 0 then
    (Except.error GovernorError.AmountShouldNotBeZero, g)
  else if e.balance ≤ amount then
    (Except.error GovernorError.InsufficientBalance, g)
  else if duration = 0 then
    (Except.error GovernorError.DurationError, g)
  else
    (Except.ok (), proposeSuccState g e to_account amount duration)

/-- The voter weight computed in `vote`:
`(caller_balance * 100 / total_supply) as u8`, with the `u128`
multiplication wrapping and the cast truncating modulo 256. -/
def voteWeight (caller_balance total_supply : Nat) : Nat :=
  (caller_balance * 100 % U128MOD / total_supply) % U8MOD

/-- The tally written back by the success path of `vote`: the caller's
weight is added to the side selected by the vote type, a `u8` `+=`, hence
modulo 256. -/
def updatedTally (g : Governor) (e : Env) (proposal_id : ProposalId)
    (v : VoteType) : ProposalVote :=
  let weight := voteWeight (e.balance_of e.caller) e.total_supply
  let pv := tallyOf g proposal_id
  match v with
  | VoteType.For => { pv with for_votes := (pv.for_votes + weight) % U8MOD }
  | VoteType.Against => { pv with against_vote := (pv.against_vote + weight) % U8MOD }

/-- The state written by the success path of `vote`: the (proposal, caller)
pair is recorded in `votes` and the updated tally is stored. -/
def voteSuccState (g : Governor) (e : Env) (proposal_id : ProposalId)
    (v : VoteType) : Governor :=
  { g with
    votes := fun p a =>
      if p = proposal_id ∧ a = e.caller then true else g.votes p a
    proposal_votes := fun p =>
      if p = proposal_id then some (updatedTally g e proposal_id v)
      else g.proposal_votes p }

/-- `Governor::vote`.  Returns `none` when the call panics (the division by
zero on a zero total supply); otherwise `some (result, post-state)`.  In the
source the vote-ledger insert precedes the ledger queries, but the panic
reverts that insert, so the trap branch discards it here; the insert is
part of `voteSuccState`. -/
def vote (g : Governor) (e : Env) (proposal_id : ProposalId) (v : VoteType) :
    Option (Except GovernorError Unit × Governor) :=
  match g.proposals proposal_id with
  | none => some (Except.error GovernorError.ProposalNotFound, g)
  | some proposal =>
    if proposal.executed then
      some (Except.error GovernorError.ProposalAlreadyExecuted, g)
    else if proposal.vote_end < e.now then
      some (Except.error GovernorError.VotePeriodEnded, g)
    else if g.votes proposal_id e.caller then
      some (Except.error GovernorError.AlreadyVoted, g)
    else if e.total_supply = 0 then
      none
    else
      some (Except.ok (), voteSuccState g e proposal_id v)

/-- The state written by the success path of `execute` (after the guarded
transfer): the proposal is stored back with `executed = true`. -/
def executeSuccState (g : Governor) (proposal_id : ProposalId)
    (proposal : Proposal) : Governor :=
  { g with
    proposals := fun i =>
      if i = proposal_id then some { proposal with executed := true }
      else g.proposals i }

/-- `Governor::execute`.  The quorum test `for_votes + against_vote <
quorum` is a `u8` addition, hence taken modulo 256. -/
def execute (g : Governor) (e : Env) (proposal_id : ProposalId) :
    Except GovernorError Unit × Governor :=
  match g.proposals proposal_id with
  | none => (Except.error GovernorError.ProposalNotFound, g)
  | some proposal =>
    if proposal.executed then
      (Except.error GovernorError.ProposalAlreadyExecuted, g)
    else
      let pv := tallyOf g proposal_id
      if (pv.for_votes + pv.against_vote) % U8MOD < g.quorum then
        (Except.error GovernorError.QuorumNotReached, g)
      else if pv.for_votes < pv.against_vote then
        (Except.error GovernorError.ProposalNotAccepted, g)
      else if proposal.amount < e.balance then
        (Except.ok (), executeSuccState g proposal_id proposal)
      else
        (Except.error GovernorError.InsufficientBalance, g)

/-! ### Concrete states used by witnesses and counterexamples -/

/-- Sample environment: caller 1, time 0, contract balance 1000, a token
total supply of 10, every account holding 5 tokens. -/
def sampleEnv : Env :=
  { caller := 1, now := 0, balance := 1000, total_supply := 10
    balance_of := fun _ => 5 }

/-- The sample environment at time 61, after proposal 0's window closes. -/
def lateEnv : Env := { sampleEnv with now := 61 }

/-- Fresh governor with quorum 50 after one `propose(7, 100, 1)`:
proposal 0 is `⟨7, 0, 60, false, 100⟩` and nobody has voted. -/
def sampleGov : Governor := (propose (Governor.new 99 50) sampleEnv 7 100 1).2

/-- The proposal stored in `c1Gov`. -/
def c1Proposal : Proposal := ⟨7, 0, 60, false, 100⟩

/-- Governor holding unexecuted proposal 0 with tally `for_weight = 200`,
`against_weight = 100` and quorum 50 — a tally reachable from three voters
of weight 100 each (balances are read live, so the same tokens can be
passed between voters). -/
def c1Gov : Governor :=
  { sampleGov with
    proposal_votes := fun i => if i = 0 then some ⟨200, 100⟩ else none }

/-- Fresh governor with quorum 0 holding proposal 0, on which `execute`
succeeds with no votes at all. -/
def c1WitnessGov : Governor := (propose (Governor.new 99 0) sampleEnv 7 100 1).2

/-- Governor differing from `Governor.new 99 50` only in the counter. -/
def c2Gov : Governor := { Governor.new 99 50 with next_proposal_id := 7 }

/-- State after voter 1 successfully voted For on proposal 0. -/
def c3Gov : Governor := voteSuccState sampleGov sampleEnv 0 VoteType.For

/-- Ledger environment where the caller holds the entire supply of
`2^127` tokens, so `balance_of(caller) * 100` overflows `u128`. -/
def c4Env : Env :=
  { caller := 1, now := 0, balance := 1000, total_supply := 2 ^ 127
    balance_of := fun _ => 2 ^ 127 }

/-- Governor where proposal 0 already carries `for_weight = 200`
(reachable: two successive full-weight voters, the tokens being moved
between the votes). -/
def c8Gov : Governor :=
  { sampleGov with
    proposal_votes := fun i => if i = 0 then some ⟨200, 0⟩ else none }

/-- Ledger where the caller holds the full 10-token supply: weight 100. -/
def c8Env : Env :=
  { caller := 1, now := 0, balance := 1000, total_supply := 10
    balance_of := fun _ => 10 }

/-- Validity of one call's environment: the timestamp is a `u64` value and
the balances are `u128` values. -/
def Env.Valid (e : Env) : Prop :=
  e.now < U64MOD ∧ e.balance < U128MOD ∧ e.total_supply < U128MOD ∧
    ∀ a, e.balance_of a < U128MOD

/-- States reachable from a freshly constructed governor by `propose`,
`vote` and `execute` calls under valid environments and in-range
arguments (a `vote` that panics yields no successor state). -/
inductive Reach : Governor → Prop
  | init (tok : AccountId) (q : Nat) (hq : q < U8MOD) :
      Reach (Governor.new tok q)
  | propose_step (g : Governor) (e : Env) (t amount duration : Nat)
      (hg : Reach g) (he : e.Valid) (ha : amount < U128MOD)
      (hd : duration < U64MOD) : Reach (propose g e t amount duration).2
  | vote_step (g g2 : Governor) (e : Env) (pid : ProposalId) (v : VoteType)
      (r : Except GovernorError Unit) (hg : Reach g) (he : e.Valid)
      (hv : vote g e pid v = some (r, g2)) : Reach g2
  | execute_step (g : Governor) (e : Env) (pid : ProposalId)
      (hg : Reach g) (he : e.Valid) : Reach (execute g e pid).2

/-- The proposal stored by `propose(7, 100, 2^62)` at time 0: the `u64`
product `2^62 * 60 = 15 * 2^64` wraps to 0, so `vote_end = vote_start`. -/
def c9Proposal : Proposal := ⟨7, 0, 0, false, 100⟩

/-- The reachable state holding that proposal. -/
def c9Gov : Governor :=
  (propose (Governor.new 99 50) sampleEnv 7 100 (2 ^ 62)).2

/-- The sample environment whose caller holds zero tokens. -/
def c10Env : Env := { sampleEnv with balance_of := fun _ => 0 }

/-! ### Branch characterisation lemmas -/

theorem propose_amount_zero (g : Governor) (e : Env) (t amount duration : Nat)
    (h : amount = 0) :
    propose g e t amount duration =
      (Except.error GovernorError.AmountShouldNotBeZero, g) := by
  simp [propose, h]

theorem propose_balance_le (g : Governor) (e : Env) (t amount duration : Nat)
    (h1 : amount ≠ 0) (h2 : e.balance ≤ amount) :
    propose g e t amount duration =
      (Except.error GovernorError.InsufficientBalance, g) := by
  simp [propose, h1, h2]

theorem propose_duration_zero (g : Governor) (e : Env) (t amount duration : Nat)
    (h1 : amount ≠ 0) (h2 : amount < e.balance) (h3 : duration = 0) :
    propose g e t amount duration =
      (Except.error GovernorError.DurationError, g) := by
  simp [propose, h1, h3, Nat.not_le.mpr h2]

theorem propose_ok (g : Governor) (e : Env) (t amount duration : Nat)
    (h1 : amount ≠ 0) (h2 : amount < e.balance) (h3 : duration ≠ 0) :
    propose g e t amount duration =
      (Except.ok (), proposeSuccState g e t amount duration) := by
  simp [propose, h1, h3, Nat.not_le.mpr h2]

theorem vote_not_found (g : Governor) (e : Env) (pid : ProposalId) (v : VoteType)
    (hp : g.proposals pid = none) :
    vote g e pid v = some (Except.error GovernorError.ProposalNotFound, g) := by
  simp [vote, hp]

theorem vote_already_executed (g : Governor) (e : Env) (pid : ProposalId)
    (v : VoteType) (p : Proposal) (hp : g.proposals pid = some p)
    (hx : p.executed = true) :
    vote g e pid v =
      some (Except.error GovernorError.ProposalAlreadyExecuted, g) := by
  simp [vote, hp, hx]

theorem vote_period_ended (g : Governor) (e : Env) (pid : ProposalId)
    (v : VoteType) (p : Proposal) (hp : g.proposals pid = some p)
    (hx : p.executed = false) (ht : p.vote_end < e.now) :
    vote g e pid v = some (Except.error GovernorError.VotePeriodEnded, g) := by
  simp [vote, hp, hx, ht]

theorem vote_already_voted (g : Governor) (e : Env) (pid : ProposalId)
    (v : VoteType) (p : Proposal) (hp : g.proposals pid = some p)
    (hx : p.executed = false) (ht : e.now ≤ p.vote_end)
    (hv : g.votes pid e.caller = true) :
    vote g e pid v = some (Except.error GovernorError.AlreadyVoted, g) := by
  simp [vote, hp, hx, Nat.not_lt.mpr ht, hv]

theorem vote_div_by_zero (g : Governor) (e : Env) (pid : ProposalId)
    (v : VoteType) (p : Proposal) (hp : g.proposals pid = some p)
    (hx : p.executed = false) (ht : e.now ≤ p.vote_end)
    (hv : g.votes pid e.caller = false) (hts : e.total_supply = 0) :
    vote g e pid v = none := by
  simp [vote, hp, hx, Nat.not_lt.mpr ht, hv, hts]

theorem vote_ok (g : Governor) (e : Env) (pid : ProposalId)
    (v : VoteType) (p : Proposal) (hp : g.proposals pid = some p)
    (hx : p.executed = false) (ht : e.now ≤ p.vote_end)
    (hv : g.votes pid e.caller = false) (hts : e.total_supply ≠ 0) :
    vote g e pid v = some (Except.ok (), voteSuccState g e pid v) := by
  simp [vote, hp, hx, Nat.not_lt.mpr ht, hv, hts]

theorem execute_not_found (g : Governor) (e : Env) (pid : ProposalId)
    (hp : g.proposals pid = none) :
    execute g e pid = (Except.error GovernorError.ProposalNotFound, g) := by
  simp [execute, hp]

theorem execute_already_executed (g : Governor) (e : Env) (pid : ProposalId)
    (p : Proposal) (hp : g.proposals pid = some p) (hx : p.executed = true) :
    execute g e pid =
      (Except.error GovernorError.ProposalAlreadyExecuted, g) := by
  simp [execute, hp, hx]

theorem execute_quorum_not_reached (g : Governor) (e : Env) (pid : ProposalId)
    (p : Proposal) (hp : g.proposals pid = some p) (hx : p.executed = false)
    (hq : ((tallyOf g pid).for_votes + (tallyOf g pid).against_vote) % U8MOD
            < g.quorum) :
    execute g e pid = (Except.error GovernorError.QuorumNotReached, g) := by
  simp [execute, hp, hx, hq]

theorem execute_not_accepted (g : Governor) (e : Env) (pid : ProposalId)
    (p : Proposal) (hp : g.proposals pid = some p) (hx : p.executed = false)
    (hq : g.quorum ≤
      ((tallyOf g pid).for_votes + (tallyOf g pid).against_vote) % U8MOD)
    (hfa : (tallyOf g pid).for_votes < (tallyOf g pid).against_vote) :
    execute g e pid = (Except.error GovernorError.ProposalNotAccepted, g) := by
  simp [execute, hp, hx, Nat.not_lt.mpr hq, hfa]

theorem execute_insufficient (g : Governor) (e : Env) (pid : ProposalId)
    (p : Proposal) (hp : g.proposals pid = some p) (hx : p.executed = false)
    (hq : g.quorum ≤
      ((tallyOf g pid).for_votes + (tallyOf g pid).against_vote) % U8MOD)
    (hfa : (tallyOf g pid).against_vote ≤ (tallyOf g pid).for_votes)
    (hb : e.balance ≤ p.amount) :
    execute g e pid = (Except.error GovernorError.InsufficientBalance, g) := by
  simp [execute, hp, hx, Nat.not_lt.mpr hq, Nat.not_lt.mpr hfa, Nat.not_lt.mpr hb]

theorem execute_ok (g : Governor) (e : Env) (pid : ProposalId)
    (p : Proposal) (hp : g.proposals pid = some p) (hx : p.executed = false)
    (hq : g.quorum ≤
      ((tallyOf g pid).for_votes + (tallyOf g pid).against_vote) % U8MOD)
    (hfa : (tallyOf g pid).against_vote ≤ (tallyOf g pid).for_votes)
    (hb : p.amount < e.balance) :
    execute g e pid = (Except.ok (), executeSuccState g pid p) := by
  simp [execute, hp, hx, Nat.not_lt.mpr hq, Nat.not_lt.mpr hfa, hb]

/-! ### Exhaustive case analyses -/

theorem propose_state_cases (g : Governor) (e : Env) (t amount duration : Nat) :
    (∃ err, propose g e t amount duration = (Except.error err, g)) ∨
    (amount ≠ 0 ∧ amount < e.balance ∧ duration ≠ 0 ∧
      propose g e t amount duration =
        (Except.ok (), proposeSuccState g e t amount duration)) := by
  by_cases h1 : amount = 0
  · exact Or.inl ⟨_, propose_amount_zero g e t amount duration h1⟩
  by_cases h2 : e.balance ≤ amount
  · exact Or.inl ⟨_, propose_balance_le g e t amount duration h1 h2⟩
  by_cases h3 : duration = 0
  · exact Or.inl ⟨_, propose_duration_zero g e t amount duration h1 (Nat.not_le.mp h2) h3⟩
  · exact Or.inr ⟨h1, Nat.not_le.mp h2, h3,
      propose_ok g e t amount duration h1 (Nat.not_le.mp h2) h3⟩

theorem vote_state_cases (g : Governor) (e : Env) (pid : ProposalId)
    (v : VoteType) (r : Except GovernorError Unit) (g2 : Governor)
    (h : vote g e pid v = some (r, g2)) :
    (∃ err, r = Except.error err ∧ g2 = g) ∨
    (r = Except.ok () ∧ g2 = voteSuccState g e pid v) := by
  rcases hp : g.proposals pid with _ | p
  · rw [vote_not_found g e pid v hp] at h
    simp only [Option.some.injEq, Prod.mk.injEq] at h
    exact Or.inl ⟨_, h.1.symm, h.2.symm⟩
  by_cases hx : p.executed = true
  · rw [vote_already_executed g e pid v p hp hx] at h
    simp only [Option.some.injEq, Prod.mk.injEq] at h
    exact Or.inl ⟨_, h.1.symm, h.2.symm⟩
  have hx2 : p.executed = false := by simpa using hx
  by_cases ht : p.vote_end < e.now
  · rw [vote_period_ended g e pid v p hp hx2 ht] at h
    simp only [Option.some.injEq, Prod.mk.injEq] at h
    exact Or.inl ⟨_, h.1.symm, h.2.symm⟩
  have ht2 : e.now ≤ p.vote_end := Nat.not_lt.mp ht
  by_cases hv : g.votes pid e.caller = true
  · rw [vote_already_voted g e pid v p hp hx2 ht2 hv] at h
    simp only [Option.some.injEq, Prod.mk.injEq] at h
    exact Or.inl ⟨_, h.1.symm, h.2.symm⟩
  have hv2 : g.votes pid e.caller = false := by simpa using hv
  by_cases hts : e.total_supply = 0
  · rw [vote_div_by_zero g e pid v p hp hx2 ht2 hv2 hts] at h
    cases h
  · rw [vote_ok g e pid v p hp hx2 ht2 hv2 hts] at h
    simp only [Option.some.injEq, Prod.mk.injEq] at h
    exact Or.inr ⟨h.1.symm, h.2.symm⟩

theorem execute_state_cases (g : Governor) (e : Env) (pid : ProposalId) :
    (∃ err, execute g e pid = (Except.error err, g)) ∨
    (∃ p, g.proposals pid = some p ∧ p.executed = false ∧
      execute g e pid = (Except.ok (), executeSuccState g pid p)) := by
  rcases hp : g.proposals pid with _ | p
  · exact Or.inl ⟨_, execute_not_found g e pid hp⟩
  by_cases hx : p.executed = true
  · exact Or.inl ⟨_, execute_already_executed g e pid p hp hx⟩
  have hx2 : p.executed = false := by simpa using hx
  by_cases hq : ((tallyOf g pid).for_votes + (tallyOf g pid).against_vote) % U8MOD
      < g.quorum
  · exact Or.inl ⟨_, execute_quorum_not_reached g e pid p hp hx2 hq⟩
  have hq2 := Nat.not_lt.mp hq
  by_cases hfa : (tallyOf g pid).for_votes < (tallyOf g pid).against_vote
  · exact Or.inl ⟨_, execute_not_accepted g e pid p hp hx2 hq2 hfa⟩
  have hfa2 := Nat.not_lt.mp hfa
  by_cases hb : p.amount < e.balance
  · exact Or.inr ⟨p, rfl, hx2, execute_ok g e pid p hp hx2 hq2 hfa2 hb⟩
  · exact Or.inl ⟨_, execute_insufficient g e pid p hp hx2 hq2 hfa2 (Nat.not_lt.mp hb)⟩

/-! ### Small projection helpers -/

theorem voteSuccState_tally (g : Governor) (e : Env) (pid : ProposalId)
    (v : VoteType) :
    tallyOf (voteSuccState g e pid v) pid = updatedTally g e pid v := by
  simp [tallyOf, voteSuccState]

theorem updatedTally_For (g : Governor) (e : Env) (pid : ProposalId) :
    updatedTally g e pid VoteType.For =
      ⟨((tallyOf g pid).for_votes +
          voteWeight (e.balance_of e.caller) e.total_supply) % U8MOD,
        (tallyOf g pid).against_vote⟩ := rfl

theorem updatedTally_Against (g : Governor) (e : Env) (pid : ProposalId) :
    updatedTally g e pid VoteType.Against =
      ⟨(tallyOf g pid).for_votes,
        ((tallyOf g pid).against_vote +
          voteWeight (e.balance_of e.caller) e.total_supply) % U8MOD⟩ := rfl

/-! ### Claim C5 -/

/-- C5: `propose` checks its preconditions in order: `amount ≠ 0` (else
`AmountShouldNotBeZero`), `amount` strictly below the contract balance
(else `InsufficientBalance`, so `amount` equal to the balance also fails),
`duration ≠ 0` (else `DurationError`); `amount = 0` takes precedence over
any other failing condition, the error being returned whatever the other
arguments are. -/
theorem C5_propose_error_order (g : Governor) (e : Env)
    (t amount duration : Nat) :
    (amount = 0 →
      propose g e t amount duration =
        (Except.error GovernorError.AmountShouldNotBeZero, g)) ∧
    (amount ≠ 0 → e.balance ≤ amount →
      propose g e t amount duration =
        (Except.error GovernorError.InsufficientBalance, g)) ∧
    (amount ≠ 0 → amount < e.balance → duration = 0 →
      propose g e t amount duration =
        (Except.error GovernorError.DurationError, g)) :=
  ⟨fun h => propose_amount_zero g e t amount duration h,
   fun h1 h2 => propose_balance_le g e t amount duration h1 h2,
   fun h1 h2 h3 => propose_duration_zero g e t amount duration h1 h2 h3⟩

/-- Witness for C5: `amount = 0` (with `duration = 0` as well), `amount`
equal to the balance, and `duration = 0` with a valid amount. -/
theorem C5_witness :
    propose (Governor.new 99 50) sampleEnv 7 0 0 =
      (Except.error GovernorError.AmountShouldNotBeZero, Governor.new 99 50) ∧
    propose (Governor.new 99 50) sampleEnv 7 1000 1 =
      (Except.error GovernorError.InsufficientBalance, Governor.new 99 50) ∧
    propose (Governor.new 99 50) sampleEnv 7 100 0 =
      (Except.error GovernorError.DurationError, Governor.new 99 50) :=
  ⟨(C5_propose_error_order (Governor.new 99 50) sampleEnv 7 0 0).1 rfl,
   (C5_propose_error_order (Governor.new 99 50) sampleEnv 7 1000 1).2.1
      (by decide) (by decide),
   (C5_propose_error_order (Governor.new 99 50) sampleEnv 7 100 0).2.2
      (by decide) (by decide) rfl⟩

/-! ### Claim C6 -/

/-- C6: every `propose`, `vote` or `execute` call that returns an error
leaves the entire Governor state — proposal store, tally store, vote
ledger and the id counter — exactly as it was. -/
theorem C6_error_state_neutral (g g1 g2 g3 : Governor) (e1 e2 e3 : Env)
    (t amount duration pid pid2 : Nat) (v : VoteType)
    (err1 err2 err3 : GovernorError) :
    (propose g e1 t amount duration = (Except.error err1, g1) → g1 = g) ∧
    (vote g e2 pid v = some (Except.error err2, g2) → g2 = g) ∧
    (execute g e3 pid2 = (Except.error err3, g3) → g3 = g) := by
  refine ⟨fun h => ?_, fun h => ?_, fun h => ?_⟩
  · rcases propose_state_cases g e1 t amount duration with ⟨err, hc⟩ | ⟨_, _, _, hc⟩
    · rw [hc] at h
      injection h with h1 h2
      exact h2.symm
    · rw [hc] at h
      injection h with h1 h2
      exact Except.noConfusion h1
  · rcases vote_state_cases g e2 pid v (Except.error err2) g2 h with
      ⟨err, he, hg⟩ | ⟨he, hg⟩
    · exact hg
    · exact Except.noConfusion he
  · rcases execute_state_cases g e3 pid2 with ⟨err, hc⟩ | ⟨p, hp, hx, hc⟩
    · rw [hc] at h
      injection h with h1 h2
      exact h2.symm
    · rw [hc] at h
      injection h with h1 h2
      exact Except.noConfusion h1

/-- Witness for C6: a failing `propose` (zero amount), a failing `vote`
(window closed) and a failing `execute` (quorum not reached), each leaving
the concrete state untouched. -/
theorem C6_witness :
    (propose (Governor.new 99 50) sampleEnv 7 0 1).2 = Governor.new 99 50 ∧
    ((vote sampleGov lateEnv 0 VoteType.For).getD
        (Except.ok (), sampleGov)).2 = sampleGov ∧
    (execute sampleGov sampleEnv 0).2 = sampleGov :=
  ⟨(C6_error_state_neutral (Governor.new 99 50)
      (propose (Governor.new 99 50) sampleEnv 7 0 1).2
      sampleGov sampleGov sampleEnv sampleEnv sampleEnv 7 0 1 0 0 VoteType.For
      GovernorError.AmountShouldNotBeZero GovernorError.VotePeriodEnded
      GovernorError.QuorumNotReached).1 rfl,
   (C6_error_state_neutral sampleGov sampleGov
      ((vote sampleGov lateEnv 0 VoteType.For).getD (Except.ok (), sampleGov)).2
      sampleGov sampleEnv lateEnv sampleEnv 7 0 1 0 0 VoteType.For
      GovernorError.AmountShouldNotBeZero GovernorError.VotePeriodEnded
      GovernorError.QuorumNotReached).2.1 rfl,
   (C6_error_state_neutral sampleGov sampleGov sampleGov
      (execute sampleGov sampleEnv 0).2 sampleEnv sampleEnv sampleEnv 7 0 1 0 0
      VoteType.For GovernorError.AmountShouldNotBeZero
      GovernorError.VotePeriodEnded GovernorError.QuorumNotReached).2.2 rfl⟩

/-! ### Claim C7 -/

/-- C7: the weight computation divides by `total_supply()` with no guard:
once the existence, not-executed, window and not-already-voted checks have
passed, a zero total supply drives `vote` into the division by zero (the
panic outcome, modelled as `none`), and a positive total supply makes the
division well defined and `vote` succeed. -/
theorem C7_division_guard (g : Governor) (e : Env) (pid : ProposalId)
    (v : VoteType) (p : Proposal) (hp : g.proposals pid = some p)
    (hx : p.executed = false) (ht : e.now ≤ p.vote_end)
    (hv : g.votes pid e.caller = false) :
    (e.total_supply = 0 → vote g e pid v = none) ∧
    (0 < e.total_supply →
      vote g e pid v = some (Except.ok (), voteSuccState g e pid v)) :=
  ⟨fun hts => vote_div_by_zero g e pid v p hp hx ht hv hts,
   fun hts => vote_ok g e pid v p hp hx ht hv (Nat.pos_iff_ne_zero.mp hts)⟩

/-- Witness for C7: on the sample proposal, a zero-supply ledger makes
`vote` hit the division by zero, and the supply-10 ledger lets it
succeed. -/
theorem C7_witness :
    vote sampleGov { sampleEnv with total_supply := 0 } 0 VoteType.For
      = none ∧
    vote sampleGov sampleEnv 0 VoteType.For =
      some (Except.ok (), voteSuccState sampleGov sampleEnv 0 VoteType.For) :=
  ⟨(C7_division_guard sampleGov { sampleEnv with total_supply := 0 } 0
      VoteType.For ⟨7, 0, 60, false, 100⟩ rfl rfl (by decide) rfl).1 rfl,
   (C7_division_guard sampleGov sampleEnv 0 VoteType.For
      ⟨7, 0, 60, false, 100⟩ rfl rfl (by decide) rfl).2 (by decide)⟩

/-! ### Claim C1 -/

/-- C1 counterexample: proposal 0 exists and is unexecuted, the claim's
three conditions hold (`for + against = 300 ≥ 50 = quorum`,
`for = 200 ≥ 100 = against`, `balance = 1000 > 100 = amount`), yet
`execute` fails with `QuorumNotReached`: the quorum check adds the two
`u8` tallies with wrapping arithmetic, and `(200 + 100) % 256 = 44 < 50`. -/
theorem C1_counterexample :
    c1Gov.proposals 0 = some c1Proposal ∧
    c1Proposal.executed = false ∧
    tallyOf c1Gov 0 = ⟨200, 100⟩ ∧
    c1Gov.quorum = 50 ∧
    c1Gov.quorum ≤ (tallyOf c1Gov 0).for_votes + (tallyOf c1Gov 0).against_vote ∧
    (tallyOf c1Gov 0).against_vote ≤ (tallyOf c1Gov 0).for_votes ∧
    c1Proposal.amount < sampleEnv.balance ∧
    execute c1Gov sampleEnv 0 =
      (Except.error GovernorError.QuorumNotReached, c1Gov) :=
  ⟨rfl, rfl, rfl, rfl, by decide, by decide, by decide, rfl⟩

/-- C1 amended: for an existing, unexecuted proposal, `execute` succeeds
iff `(for_weight + against_weight) % 256 ≥ quorum` (the `u8` wrapping sum
the code computes — equal to the claim's plain sum whenever
`for_weight + against_weight ≤ 255`), `for_weight ≥ against_weight` (tie
accepted), and `balance > amount`; each false condition yields exactly
`QuorumNotReached`, `ProposalNotAccepted`, `InsufficientBalance`, in that
order, and the outcome is independent of the current time, so success
never requires the voting window to be over. -/
theorem C1_execute_decision (g : Governor) (e : Env) (pid : ProposalId)
    (p : Proposal) (hp : g.proposals pid = some p) (hx : p.executed = false) :
    ((execute g e pid).1 = Except.ok () ↔
      (g.quorum ≤
          ((tallyOf g pid).for_votes + (tallyOf g pid).against_vote) % U8MOD ∧
        (tallyOf g pid).against_vote ≤ (tallyOf g pid).for_votes ∧
        p.amount < e.balance)) ∧
    (((tallyOf g pid).for_votes + (tallyOf g pid).against_vote) % U8MOD
        < g.quorum →
      execute g e pid = (Except.error GovernorError.QuorumNotReached, g)) ∧
    (g.quorum ≤
        ((tallyOf g pid).for_votes + (tallyOf g pid).against_vote) % U8MOD →
      (tallyOf g pid).for_votes < (tallyOf g pid).against_vote →
      execute g e pid = (Except.error GovernorError.ProposalNotAccepted, g)) ∧
    (g.quorum ≤
        ((tallyOf g pid).for_votes + (tallyOf g pid).against_vote) % U8MOD →
      (tallyOf g pid).against_vote ≤ (tallyOf g pid).for_votes →
      e.balance ≤ p.amount →
      execute g e pid = (Except.error GovernorError.InsufficientBalance, g)) ∧
    (∀ t2, execute g { e with now := t2 } pid = execute g e pid) := by
  refine ⟨⟨fun hok => ?_, fun hcond => ?_⟩,
    fun hq => execute_quorum_not_reached g e pid p hp hx hq,
    fun hq hfa => execute_not_accepted g e pid p hp hx hq hfa,
    fun hq hfa hb => execute_insufficient g e pid p hp hx hq hfa hb,
    fun t2 => rfl⟩
  · by_cases hq : ((tallyOf g pid).for_votes + (tallyOf g pid).against_vote)
        % U8MOD < g.quorum
    · rw [execute_quorum_not_reached g e pid p hp hx hq] at hok
      exact Except.noConfusion hok
    by_cases hfa : (tallyOf g pid).for_votes < (tallyOf g pid).against_vote
    · rw [execute_not_accepted g e pid p hp hx (Nat.not_lt.mp hq) hfa] at hok
      exact Except.noConfusion hok
    by_cases hb : p.amount < e.balance
    · exact ⟨Nat.not_lt.mp hq, Nat.not_lt.mp hfa, hb⟩
    · rw [execute_insufficient g e pid p hp hx (Nat.not_lt.mp hq)
        (Nat.not_lt.mp hfa) (Nat.not_lt.mp hb)] at hok
      exact Except.noConfusion hok
  · rw [execute_ok g e pid p hp hx hcond.1 hcond.2.1 hcond.2.2]

/-- Witness for C1: with quorum 0, an empty tally and balance above the
amount, `execute` succeeds (before the voting window is over: `vote_end =
60` and the decision ignores time). -/
theorem C1_witness : (execute c1WitnessGov sampleEnv 0).1 = Except.ok () :=
  (C1_execute_decision c1WitnessGov sampleEnv 0 ⟨7, 0, 60, false, 100⟩
      rfl rfl).1.mpr ⟨by decide, by decide, by decide⟩

/-! ### Claim C2 -/

/-- C2 counterexample: `propose` does not return the assigned id to the
caller — its Rust success value is `Ok(())`, of type `Result<(),
GovernorError>`.  Two successful calls that assign the different ids 0 and
7 return the one same unit value, so the returned value cannot equal (or
even determine) the assigned id. -/
theorem C2_counterexample :
    (propose (Governor.new 99 50) sampleEnv 3 100 1).1 = Except.ok () ∧
    (propose c2Gov sampleEnv 3 100 1).1 = Except.ok () ∧
    (propose (Governor.new 99 50) sampleEnv 3 100 1).1 =
      (propose c2Gov sampleEnv 3 100 1).1 ∧
    (Governor.new 99 50).next_proposal_id = 0 ∧
    c2Gov.next_proposal_id = 7 :=
  ⟨rfl, rfl, rfl, rfl, rfl⟩

/-- C2 amended: for `amount ≠ 0`, `amount < balance` and `duration ≠ 0`,
`propose` succeeds returning the unit value (the assigned id is not
returned; it equals the pre-call `next_proposal_id`), inserts the new
proposal at the pre-call `next_proposal_id`, and advances the counter by
one (modulo `2^32`, the `u32` width — plain `+ 1` below `2^32 - 1`). -/
theorem C2_propose_success (g : Governor) (e : Env) (t amount duration : Nat)
    (h1 : amount ≠ 0) (h2 : amount < e.balance) (h3 : duration ≠ 0) :
    propose g e t amount duration =
      (Except.ok (), proposeSuccState g e t amount duration) ∧
    (proposeSuccState g e t amount duration).proposals g.next_proposal_id =
      some (newProposal e t amount duration) ∧
    (proposeSuccState g e t amount duration).next_proposal_id =
      (g.next_proposal_id + 1) % U32MOD :=
  ⟨propose_ok g e t amount duration h1 h2 h3, by simp [proposeSuccState], rfl⟩

/-- Witness for C2: `propose(7, 100, 1)` on a fresh governor stores
proposal `⟨7, 0, 60, false, 100⟩` at id 0 and moves the counter to 1. -/
theorem C2_witness :
    propose (Governor.new 99 50) sampleEnv 7 100 1 =
      (Except.ok (), proposeSuccState (Governor.new 99 50) sampleEnv 7 100 1) ∧
    (proposeSuccState (Governor.new 99 50) sampleEnv 7 100 1).proposals 0 =
      some ⟨7, 0, 60, false, 100⟩ ∧
    (proposeSuccState (Governor.new 99 50) sampleEnv 7 100 1).next_proposal_id
      = 1 := by
  have h := C2_propose_success (Governor.new 99 50) sampleEnv 7 100 1
    (by decide) (by decide) (by decide)
  exact ⟨h.1, h.2.1, h.2.2⟩

/-! ### Claim C3 -/

/-- C3 counterexample: after a successful vote, a second `vote` call by
the same voter on the same proposal does not always fail with
`AlreadyVoted`: made after the voting window closed (`now = 61 >
vote_end = 60`), it fails with `VotePeriodEnded`, because the existence,
executed and window checks precede the already-voted check.  (The tally is
still left unchanged.) -/
theorem C3_counterexample :
    vote sampleGov sampleEnv 0 VoteType.For = some (Except.ok (), c3Gov) ∧
    c3Gov.votes 0 lateEnv.caller = true ∧
    vote c3Gov lateEnv 0 VoteType.Against =
      some (Except.error GovernorError.VotePeriodEnded, c3Gov) ∧
    GovernorError.VotePeriodEnded ≠ GovernorError.AlreadyVoted :=
  ⟨rfl, rfl, rfl, by decide⟩

/-- C3 amended: a (proposal, voter) pair contributes weight to the tally
at most once.  Once the pair is in the vote ledger, every further `vote`
call by that voter on that proposal returns an error and leaves the whole
state — in particular the tally — unchanged; the error is `AlreadyVoted`
exactly when the earlier existence / not-executed / window guards pass
(otherwise it is the corresponding earlier error).  A successful vote
records the pair, and no operation ever removes a recorded pair. -/
theorem C3_vote_at_most_once (g g2 g3 : Governor) (e e2 : Env)
    (pid pid2 : ProposalId) (a t amount duration : Nat) (v v2 : VoteType)
    (p : Proposal) (r : Except GovernorError Unit) :
    (g.votes pid e.caller = true →
      ∃ err, vote g e pid v = some (Except.error err, g)) ∧
    (g.proposals pid = some p → p.executed = false → e.now ≤ p.vote_end →
      g.votes pid e.caller = true →
      vote g e pid v = some (Except.error GovernorError.AlreadyVoted, g)) ∧
    (vote g e pid v = some (Except.ok (), g2) →
      g2.votes pid e.caller = true) ∧
    (g.votes pid a = true →
      (propose g e2 t amount duration).2.votes pid a = true) ∧
    (g.votes pid a = true → vote g e2 pid2 v2 = some (r, g3) →
      g3.votes pid a = true) ∧
    (g.votes pid a = true → (execute g e2 pid2).2.votes pid a = true) := by
  refine ⟨fun hv => ?_, fun hp hx ht hv =>
      vote_already_voted g e pid v p hp hx ht hv,
    fun h => ?_, fun hv => ?_, fun hv h => ?_, fun hv => ?_⟩
  · rcases hp : g.proposals pid with _ | q
    · exact ⟨_, vote_not_found g e pid v hp⟩
    by_cases hx : q.executed = true
    · exact ⟨_, vote_already_executed g e pid v q hp hx⟩
    have hx2 : q.executed = false := by simpa using hx
    by_cases ht : q.vote_end < e.now
    · exact ⟨_, vote_period_ended g e pid v q hp hx2 ht⟩
    · exact ⟨_, vote_already_voted g e pid v q hp hx2 (Nat.not_lt.mp ht) hv⟩
  · rcases vote_state_cases g e pid v (Except.ok ()) g2 h with
      ⟨err, he, hg⟩ | ⟨he, hg⟩
    · exact Except.noConfusion he
    · rw [hg]
      simp [voteSuccState]
  · rcases propose_state_cases g e2 t amount duration with ⟨err, hc⟩ | ⟨_, _, _, hc⟩ <;>
      rw [hc] <;> exact hv
  · rcases vote_state_cases g e2 pid2 v2 r g3 h with ⟨err, he, hg⟩ | ⟨he, hg⟩
    · rw [hg]; exact hv
    · rw [hg]
      simp only [voteSuccState]
      split
      · rfl
      · exact hv
  · rcases execute_state_cases g e2 pid2 with ⟨err, hc⟩ | ⟨q, hq, hx, hc⟩ <;>
      rw [hc] <;> exact hv

/-- Witness for C3: on the concrete post-vote state, a second vote by
voter 1 inside the open window fails with `AlreadyVoted` and returns the
state unchanged. -/
theorem C3_witness :
    vote c3Gov sampleEnv 0 VoteType.Against =
      some (Except.error GovernorError.AlreadyVoted, c3Gov) :=
  (C3_vote_at_most_once c3Gov c3Gov c3Gov sampleEnv sampleEnv 0 0 1 7 100 1
      VoteType.Against VoteType.Against ⟨7, 0, 60, false, 100⟩
      (Except.ok ())).2.1 rfl rfl (by decide) rfl

/-! ### Claim C4 -/

/-- C4 counterexample: a successful vote whose added weight is not
`floor(balance * 100 / total_supply)`.  With `balance = total_supply =
2^127` (normal conditions: balance ≤ supply, supply > 0) the floor formula
gives 100, but the code's `u128` multiplication wraps
(`2^127 * 100 ≡ 0 [MOD 2^128]`) and the weight added is 0: the tally stays
`⟨0, 0⟩` instead of becoming `⟨100, 0⟩`. -/
theorem C4_counterexample :
    (vote sampleGov c4Env 0 VoteType.For).map
        (fun out => (out.1, out.2.proposal_votes 0)) =
      some (Except.ok (), some ⟨0, 0⟩) ∧
    c4Env.balance_of c4Env.caller * 100 / c4Env.total_supply = 100 ∧
    c4Env.balance_of c4Env.caller ≤ c4Env.total_supply ∧
    0 < c4Env.total_supply :=
  ⟨rfl, rfl, by decide, by decide⟩

/-- C4 amended: a successful vote adds to the chosen side the weight
`((balance_of(caller) * 100) % 2^128 / total_supply()) % 256` — the `u128`
multiplication wraps and the `as u8` cast truncates.  This equals
`floor(balance_of(caller) * 100 / total_supply())` whenever
`balance * 100 < 2^128` and that quotient is below 256; and under normal
conditions (`balance ≤ total_supply`, `total_supply > 0`) the weight is an
integer percentage in `[0, 100]`. -/
theorem C4_vote_weight (g : Governor) (e : Env) (pid : ProposalId)
    (v : VoteType) (p : Proposal) (hp : g.proposals pid = some p)
    (hx : p.executed = false) (ht : e.now ≤ p.vote_end)
    (hv : g.votes pid e.caller = false) (hts : e.total_supply ≠ 0) :
    vote g e pid v = some (Except.ok (), voteSuccState g e pid v) ∧
    tallyOf (voteSuccState g e pid v) pid = updatedTally g e pid v ∧
    (v = VoteType.For →
      updatedTally g e pid v =
        ⟨((tallyOf g pid).for_votes +
            voteWeight (e.balance_of e.caller) e.total_supply) % U8MOD,
          (tallyOf g pid).against_vote⟩) ∧
    (v = VoteType.Against →
      updatedTally g e pid v =
        ⟨(tallyOf g pid).for_votes,
          ((tallyOf g pid).against_vote +
            voteWeight (e.balance_of e.caller) e.total_supply) % U8MOD⟩) ∧
    (e.balance_of e.caller * 100 < U128MOD →
      e.balance_of e.caller * 100 / e.total_supply < U8MOD →
      voteWeight (e.balance_of e.caller) e.total_supply =
        e.balance_of e.caller * 100 / e.total_supply) ∧
    (e.balance_of e.caller ≤ e.total_supply →
      voteWeight (e.balance_of e.caller) e.total_supply ≤ 100) := by
  refine ⟨vote_ok g e pid v p hp hx ht hv hts,
    voteSuccState_tally g e pid v,
    fun hveq => hveq ▸ updatedTally_For g e pid,
    fun hveq => hveq ▸ updatedTally_Against g e pid,
    fun h1 h2 => ?_, fun hb => ?_⟩
  · unfold voteWeight
    rw [Nat.mod_eq_of_lt h1, Nat.mod_eq_of_lt h2]
  · unfold voteWeight
    have h1 : e.balance_of e.caller * 100 % U128MOD / e.total_supply ≤
        e.balance_of e.caller * 100 / e.total_supply :=
      Nat.div_le_div_right (Nat.mod_le _ _)
    have h2 : e.balance_of e.caller * 100 / e.total_supply ≤
        e.total_supply * 100 / e.total_supply :=
      Nat.div_le_div_right (Nat.mul_le_mul_right 100 hb)
    have h3 : e.total_supply * 100 / e.total_supply = 100 :=
      Nat.mul_div_cancel_left 100 (Nat.pos_of_ne_zero hts)
    exact le_trans (Nat.mod_le _ _) (le_trans h1 (le_trans h2 (le_of_eq h3)))

/-- Witness for C4: voter 1 holds 5 of the 10-token supply, so the weight
added on the sample proposal is `5 * 100 / 10 = 50`. -/
theorem C4_witness :
    vote sampleGov sampleEnv 0 VoteType.For =
      some (Except.ok (), voteSuccState sampleGov sampleEnv 0 VoteType.For) ∧
    voteWeight (sampleEnv.balance_of sampleEnv.caller) sampleEnv.total_supply
      = 50 := by
  have h := C4_vote_weight sampleGov sampleEnv 0 VoteType.For
    ⟨7, 0, 60, false, 100⟩ rfl rfl (by decide) rfl (by decide)
  refine ⟨h.1, ?_⟩
  rw [h.2.2.2.2.1 (by decide) (by decide)]
  decide

/-! ### Claim C8 -/

/-- C8 counterexample: a successful vote of weight 100 on a tally whose
`for_weight` is already 200 silently wraps the `u8` accumulator:
`(200 + 100) % 256 = 44`, so `for_weight` decreases from 200 to 44 — the
accumulators are neither monotone nor wrap-free. -/
theorem C8_counterexample :
    c8Gov.proposal_votes 0 = some ⟨200, 0⟩ ∧
    voteWeight (c8Env.balance_of c8Env.caller) c8Env.total_supply = 100 ∧
    (vote c8Gov c8Env 0 VoteType.For).map
        (fun out => (out.1, out.2.proposal_votes 0)) =
      some (Except.ok (), some ⟨44, 0⟩) ∧
    44 < 200 :=
  ⟨rfl, rfl, rfl, by decide⟩

/-- C8 amended: `propose` and `execute` never touch the tallies, and a
successful vote adds the weight to the chosen accumulator modulo 256 (a
wrapping `u8` `+=`, the other side unchanged); the accumulators are
therefore non-decreasing exactly as long as no update overflows: whenever
`old + weight ≤ 255` the new value is `old + weight ≥ old`, while an
overflowing update silently wraps and can decrease the accumulator. -/
theorem C8_tally_monotone (g : Governor) (e e2 : Env)
    (pid pid2 pid3 pid4 : ProposalId) (v : VoteType) (p : Proposal)
    (t amount duration : Nat)
    (hp : g.proposals pid = some p) (hx : p.executed = false)
    (ht : e.now ≤ p.vote_end) (hv : g.votes pid e.caller = false)
    (hts : e.total_supply ≠ 0) :
    vote g e pid v = some (Except.ok (), voteSuccState g e pid v) ∧
    (v = VoteType.For →
      (tallyOf (voteSuccState g e pid v) pid).for_votes =
        ((tallyOf g pid).for_votes +
          voteWeight (e.balance_of e.caller) e.total_supply) % U8MOD ∧
      (tallyOf (voteSuccState g e pid v) pid).against_vote =
        (tallyOf g pid).against_vote) ∧
    (v = VoteType.Against →
      (tallyOf (voteSuccState g e pid v) pid).against_vote =
        ((tallyOf g pid).against_vote +
          voteWeight (e.balance_of e.caller) e.total_supply) % U8MOD ∧
      (tallyOf (voteSuccState g e pid v) pid).for_votes =
        (tallyOf g pid).for_votes) ∧
    (v = VoteType.For →
      (tallyOf g pid).for_votes +
          voteWeight (e.balance_of e.caller) e.total_supply < U8MOD →
      (tallyOf g pid).for_votes ≤
        (tallyOf (voteSuccState g e pid v) pid).for_votes) ∧
    (v = VoteType.Against →
      (tallyOf g pid).against_vote +
          voteWeight (e.balance_of e.caller) e.total_supply < U8MOD →
      (tallyOf g pid).against_vote ≤
        (tallyOf (voteSuccState g e pid v) pid).against_vote) ∧
    (tallyOf (propose g e2 t amount duration).2 pid2 = tallyOf g pid2) ∧
    (tallyOf (execute g e2 pid3).2 pid4 = tallyOf g pid4) := by
  have hFor : v = VoteType.For →
      tallyOf (voteSuccState g e pid v) pid =
        ⟨((tallyOf g pid).for_votes +
            voteWeight (e.balance_of e.caller) e.total_supply) % U8MOD,
          (tallyOf g pid).against_vote⟩ := by
    intro hveq
    rw [voteSuccState_tally, hveq, updatedTally_For]
  have hAgainst : v = VoteType.Against →
      tallyOf (voteSuccState g e pid v) pid =
        ⟨(tallyOf g pid).for_votes,
          ((tallyOf g pid).against_vote +
            voteWeight (e.balance_of e.caller) e.total_supply) % U8MOD⟩ := by
    intro hveq
    rw [voteSuccState_tally, hveq, updatedTally_Against]
  refine ⟨vote_ok g e pid v p hp hx ht hv hts,
    fun hveq => by rw [hFor hveq]; exact ⟨rfl, rfl⟩,
    fun hveq => by rw [hAgainst hveq]; exact ⟨rfl, rfl⟩,
    fun hveq hlt => ?_, fun hveq hlt => ?_, ?_, ?_⟩
  · rw [hFor hveq]
    exact le_of_le_of_eq (Nat.le_add_right _ _) (Nat.mod_eq_of_lt hlt).symm
  · rw [hAgainst hveq]
    exact le_of_le_of_eq (Nat.le_add_right _ _) (Nat.mod_eq_of_lt hlt).symm
  · rcases propose_state_cases g e2 t amount duration with ⟨err, hc⟩ | ⟨_, _, _, hc⟩ <;>
      rw [hc]
    rfl
  · rcases execute_state_cases g e2 pid3 with ⟨err, hc⟩ | ⟨q, hq, hxq, hc⟩ <;>
      rw [hc]
    rfl

/-- Witness for C8: on the sample state (empty tally, weight 50, no
overflow) the For accumulator moves from 0 to 50, non-decreasing, and a
`propose` and an `execute` on the same state leave the tally at its
default. -/
theorem C8_witness :
    (tallyOf (voteSuccState sampleGov sampleEnv 0 VoteType.For) 0).for_votes
      = 50 ∧
    (0:Nat) ≤ 50 ∧
    tallyOf (propose sampleGov sampleEnv 8 100 1).2 0 = tallyOf sampleGov 0 ∧
    tallyOf (execute sampleGov sampleEnv 0).2 0 = tallyOf sampleGov 0 := by
  have h := C8_tally_monotone sampleGov sampleEnv sampleEnv 0 0 0 0
    VoteType.For ⟨7, 0, 60, false, 100⟩ 8 100 1 rfl rfl (by decide) rfl
    (by decide)
  refine ⟨?_, by decide, h.2.2.2.2.2.1, h.2.2.2.2.2.2⟩
  rw [(h.2.1 rfl).1]
  decide

/-! ### Claim C9 -/

/-- In every reachable state, every stored proposal has `amount > 0`. -/
theorem Reach.amount_pos {g : Governor} (hg : Reach g) :
    ∀ pid p, g.proposals pid = some p → 0 < p.amount := by
  induction hg with
  | init tok q hq =>
    intro pid p hp
    simp [Governor.new] at hp
  | propose_step g e t amount duration hg he ha hd ih =>
    intro pid p hp
    rcases propose_state_cases g e t amount duration with
      ⟨err, hc⟩ | ⟨h1, h2, h3, hc⟩ <;> rw [hc] at hp
    · exact ih pid p hp
    · simp only [proposeSuccState] at hp
      by_cases heq : pid = g.next_proposal_id
      · rw [if_pos heq] at hp
        injection hp with hp2
        rw [← hp2]
        exact Nat.pos_of_ne_zero h1
      · rw [if_neg heq] at hp
        exact ih pid p hp
  | vote_step g g2 e pid v r hg he hv ih =>
    intro pid2 p hp
    rcases vote_state_cases g e pid v r g2 hv with
      ⟨err, he2, hg2⟩ | ⟨he2, hg2⟩ <;> rw [hg2] at hp
    · exact ih pid2 p hp
    · exact ih pid2 p hp
  | execute_step g e pid hg he ih =>
    intro pid2 p hp
    rcases execute_state_cases g e pid with
      ⟨err, hc⟩ | ⟨q, hq2, hxq, hc⟩ <;> rw [hc] at hp
    · exact ih pid2 p hp
    · simp only [executeSuccState] at hp
      by_cases heq : pid2 = pid
      · rw [if_pos heq] at hp
        injection hp with hp2
        rw [← hp2]
        exact ih pid q hq2
      · rw [if_neg heq] at hp
        exact ih pid2 p hp

/-- C9 counterexample: a reachable state whose stored proposal violates
`vote_end > vote_start`: `propose` with `duration = 2^62` passes the
`duration ≠ 0` check, but `duration * 60` wraps to 0 in `u64`, making
`vote_end = vote_start = 0`. -/
theorem C9_counterexample :
    Reach c9Gov ∧
    c9Gov.proposals 0 = some c9Proposal ∧
    ¬ c9Proposal.vote_start < c9Proposal.vote_end :=
  ⟨Reach.propose_step (Governor.new 99 50) sampleEnv 7 100 (2 ^ 62)
      (Reach.init 99 50 (by decide))
      ⟨by decide, by decide, by decide, fun a => by norm_num [sampleEnv]⟩
      (by decide) (by decide),
    rfl, by decide⟩

/-- C9 amended: in every reachable state every stored proposal has
`amount > 0`; `vote` never modifies the proposal store, `execute` never
replaces an already-executed proposal record (so `executed` never reverts
to false), and `propose` writes only the slot at the current
`next_proposal_id` (which can collide with an existing id only after the
`u32` counter wraps); a proposal created without `u64` overflow
(`now + duration * 60 < 2^64`) does satisfy
`vote_end = vote_start + duration * 60 > vote_start`, but with overflow
the stored `vote_end` wraps and `vote_end > vote_start` can fail. -/
theorem C9_proposal_invariants (g g2 : Governor) (e : Env)
    (pid pid2 : ProposalId) (p : Proposal) (v : VoteType)
    (t amount duration : Nat) (r : Except GovernorError Unit) :
    (Reach g → g.proposals pid = some p → 0 < p.amount) ∧
    (vote g e pid2 v = some (r, g2) → g2.proposals pid = g.proposals pid) ∧
    (g.proposals pid = some p → p.executed = true →
      (execute g e pid2).2.proposals pid = some p) ∧
    (pid ≠ g.next_proposal_id →
      (propose g e t amount duration).2.proposals pid = g.proposals pid) ∧
    (amount ≠ 0 → amount < e.balance → duration ≠ 0 →
      e.now + duration * ONE_MINUTE < U64MOD →
      (propose g e t amount duration).2.proposals g.next_proposal_id =
        some ⟨t, e.now, e.now + duration * ONE_MINUTE, false, amount⟩ ∧
      e.now < e.now + duration * ONE_MINUTE) := by
  refine ⟨fun hg hp => Reach.amount_pos hg pid p hp, fun h => ?_,
    fun hp hx => ?_, fun hne => ?_, fun h1 h2 h3 h4 => ?_⟩
  · rcases vote_state_cases g e pid2 v r g2 h with
      ⟨err, he2, hg2⟩ | ⟨he2, hg2⟩ <;> rw [hg2]
    rfl
  · rcases execute_state_cases g e pid2 with ⟨err, hc⟩ | ⟨q, hq2, hxq, hc⟩ <;>
      rw [hc]
    · exact hp
    · by_cases heq : pid = pid2
      · exfalso
        rw [heq, hq2] at hp
        injection hp with hpq
        rw [← hpq] at hx
        rw [hx] at hxq
        exact Bool.noConfusion hxq
      · simp only [executeSuccState]
        rw [if_neg heq]
        exact hp
  · rcases propose_state_cases g e t amount duration with
      ⟨err, hc⟩ | ⟨_, _, _, hc⟩ <;> rw [hc]
    simp only [proposeSuccState]
    rw [if_neg hne]
  · rw [propose_ok g e t amount duration h1 h2 h3]
    constructor
    · simp [proposeSuccState, newProposal, Nat.mod_eq_of_lt h4]
    · exact Nat.lt_add_of_pos_right
        (Nat.mul_pos (Nat.pos_of_ne_zero h3) (by decide))

/-- Witness for C9: proposal 0 of the reachable sample state has positive
amount, and the no-overflow `propose(7, 100, 1)` stores
`vote_end = 60 > 0 = vote_start`. -/
theorem C9_witness :
    (0:Nat) < 100 ∧
    (propose (Governor.new 99 50) sampleEnv 7 100 1).2.proposals 0 =
      some ⟨7, sampleEnv.now, sampleEnv.now + 1 * ONE_MINUTE, false, 100⟩ ∧
    sampleEnv.now < sampleEnv.now + 1 * ONE_MINUTE := by
  have h := C9_proposal_invariants sampleGov sampleGov sampleEnv 0 0
    ⟨7, 0, 60, false, 100⟩ VoteType.For 7 100 1 (Except.ok ())
  have h2 := C9_proposal_invariants (Governor.new 99 50) (Governor.new 99 50)
    sampleEnv 0 0 ⟨7, 0, 60, false, 100⟩ VoteType.For 7 100 1 (Except.ok ())
  have h5 := h2.2.2.2.2 (by decide) (by decide) (by decide) (by decide)
  refine ⟨?_, h5.1, h5.2⟩
  refine h.1 ?_ rfl
  exact Reach.propose_step (Governor.new 99 50) sampleEnv 7 100 1
    (Reach.init 99 50 (by decide))
    ⟨by decide, by decide, by decide, fun a => by norm_num [sampleEnv]⟩
    (by decide) (by decide)

/-! ### Claim C10 -/

/-- C10: a caller with a zero token balance can still vote: on an
existing, unexecuted proposal with an open window (positive total supply,
`u8`-valid tally), a first vote by a zero-balance caller succeeds, adds
weight 0 leaving the tally values unchanged, records the (proposal, voter)
pair, and a later vote by the same caller on that proposal (window still
open) fails with `AlreadyVoted`. -/
theorem C10_zero_balance_vote (g : Governor) (e e2 : Env) (pid : ProposalId)
    (v v2 : VoteType) (p : Proposal)
    (hp : g.proposals pid = some p) (hx : p.executed = false)
    (ht : e.now ≤ p.vote_end) (hv : g.votes pid e.caller = false)
    (hb : e.balance_of e.caller = 0) (hts : e.total_supply ≠ 0)
    (hf : (tallyOf g pid).for_votes < U8MOD)
    (ha : (tallyOf g pid).against_vote < U8MOD) :
    vote g e pid v = some (Except.ok (), voteSuccState g e pid v) ∧
    voteWeight (e.balance_of e.caller) e.total_supply = 0 ∧
    tallyOf (voteSuccState g e pid v) pid = tallyOf g pid ∧
    (voteSuccState g e pid v).votes pid e.caller = true ∧
    (e2.caller = e.caller → e2.now ≤ p.vote_end →
      vote (voteSuccState g e pid v) e2 pid v2 =
        some (Except.error GovernorError.AlreadyVoted,
          voteSuccState g e pid v)) := by
  have hw : voteWeight (e.balance_of e.caller) e.total_supply = 0 := by
    simp [voteWeight, hb]
  refine ⟨vote_ok g e pid v p hp hx ht hv hts, hw, ?_, ?_, fun hc hn => ?_⟩
  · rw [voteSuccState_tally]
    cases v
    · rw [updatedTally_Against, hw, Nat.add_zero, Nat.mod_eq_of_lt ha]
    · rw [updatedTally_For, hw, Nat.add_zero, Nat.mod_eq_of_lt hf]
  · simp [voteSuccState]
  · exact vote_already_voted (voteSuccState g e pid v) e2 pid v2 p hp hx hn
      (by rw [hc]; simp [voteSuccState])

/-- Witness for C10: on the sample proposal with a zero-balance caller,
the first vote succeeds leaving the tally at its default, and the second
vote fails with `AlreadyVoted`. -/
theorem C10_witness :
    vote sampleGov c10Env 0 VoteType.For =
      some (Except.ok (), voteSuccState sampleGov c10Env 0 VoteType.For) ∧
    tallyOf (voteSuccState sampleGov c10Env 0 VoteType.For) 0 =
      tallyOf sampleGov 0 ∧
    vote (voteSuccState sampleGov c10Env 0 VoteType.For) c10Env 0
        VoteType.Against =
      some (Except.error GovernorError.AlreadyVoted,
        voteSuccState sampleGov c10Env 0 VoteType.For) := by
  have h := C10_zero_balance_vote sampleGov c10Env c10Env 0 VoteType.For
    VoteType.Against ⟨7, 0, 60, false, 100⟩ rfl rfl (by decide) rfl rfl
    (by decide) (by decide) (by decide)
  exact ⟨h.1, h.2.2.1, h.2.2.2.2 rfl (by decide)⟩

end Dao

